import Mathlib

/-!
Shallow embedding of the batching remote logger (Go package `logs`,
files `src/logs.go` and `src/utils.go`), together with theorems checking
the specification's claims against it.

Conventions of the embedding:
* Go `any` values passed as variadic log arguments become the inductive
  `GoVal`; a floating-point argument is carried as an exact fraction
  (numerator and positive denominator) so that fixed-point rendering is
  integer arithmetic.
* A Go `map[string]string` becomes the lookup-function type `GoMap`.
* The mutable `Logger` receiver becomes the explicit state `LoggerState`;
  each method returns its updated state.
* Network effects are oracles passed in: an HTTP exchange is summarised by
  `HTTPResult` (transport error, or a completed response with its status
  code), and the fallible body of `prepareBatch` by `PrepResult`.
* Local diagnostic output (`l.logger.Warn` / `l.logger.Error`) is modelled
  by counters in the state.
-/

namespace Logs

/-- Go values that can be passed as `any` log arguments; the constructors
follow the cases of the type switch in `stringify` (src/utils.go). A float
is carried as an exact fraction `num / den` (with `den > 0` at use sites);
a `fmt.Stringer`, an `error` value and any other value are carried
together with the text that their respective rendering produces. -/
inductive GoVal where
  | str (s : String)
  | int (n : Int)
  | float (num : Int) (den : Nat)
  | bool (b : Bool)
  | stringer (s : String)
  | err (s : String)
  | other (s : String)
deriving DecidableEq

/-- Left-pad a digit string with zeros to the given width. -/
def zeroPad (w : Nat) (s : String) : String :=
  String.mk (List.replicate (w - s.length) '0') ++ s

/-- Model of Go `fmt.Sprintf("%f", x)` on the exact value `num / den`:
fixed-point rendering with six digits after the decimal point, rounding
to nearest with ties to even (the rounding `strconv` applies to a binary
float's decimal expansion). -/
def formatFloat (num : Int) (den : Nat) : String :=
  let sign := if num < 0 then "-" else ""
  let a := num.natAbs * 1000000
  let q := a / den
  let r := a % den
  let n :=
    if 2 * r < den then q
    else if den < 2 * r then q + 1
    else if q % 2 = 0 then q else q + 1
  sign ++ toString (n / 1000000) ++ "." ++ zeroPad 6 (toString (n % 1000000))

/-- Embedding of `stringify` (src/utils.go): the type switch mapping an
argument value to text — strings pass through, integers render as `%d`,
floats as `%f`, booleans as `%t`, and the remaining cases return the text
the corresponding Go rendering produces. -/
def stringify : GoVal → String
  | .str s => s
  | .int n => toString n
  | .float num den => formatFloat num den
  | .bool b => if b then "true" else "false"
  | .stringer s => s
  | .err s => s
  | .other s => s

/-- Model of Go `map[string]string`: a finite map as a lookup function. -/
def GoMap := String → Option String

/-- Model of the empty map `make(map[string]string)`. -/
def GoMap.empty : GoMap := fun _ => none

/-- Model of the Go map assignment `m[k] = v`. -/
def GoMap.set (m : GoMap) (k v : String) : GoMap :=
  fun x => if x = k then some v else m x

/-- Embedding of the key/value accumulation loop of `enqueueLog`
(src/utils.go): `for i := 0; i < length; i += 2` reads the disjoint
consecutive pairs of the (already padded) argument slice, hence the
pairwise recursion below; a pair whose key is not a string is skipped
(`continue`). -/
def argsLoopAux : List GoVal → GoMap → GoMap
  | k :: v :: rest, m =>
      argsLoopAux rest
        (match k with
          | .str s => m.set s (stringify v)
          | _ => m)
  | _, m => m

/-- Embedding of the argument flattening of `enqueueLog` (src/utils.go):
when `len(args)` is odd the slice is padded with one empty string, and the
loop bound `i < length` (the original length) makes the iteration count
⌈length/2⌉ — exactly the consecutive pairs of the padded slice. -/
def buildArgs (args : List GoVal) : GoMap :=
  argsLoopAux (if args.length % 2 ≠ 0 then args ++ [GoVal.str ""] else args)
    GoMap.empty

/-- Written from the spec's words, for comparison with `buildArgs`: the
args mapping "contains exactly the pairs whose key is a string … and when
the same string key occurs more than once, the value of the later
occurrence overwrites the earlier one". `specLookup args k` is the
stringified value of the last pair whose key is the string `k`, `none`
when no pair has that key. -/
def specLookup : List GoVal → String → Option String
  | k0 :: v0 :: rest, k =>
      match specLookup rest k with
      | some v => some v
      | none =>
          match k0 with
          | .str s => if s = k then some (stringify v0) else none
          | _ => none
  | _, _ => none

/-- Bridge between the accumulation loop and the spec-side lookup: running
the loop over a pair list on top of the map `m` yields, at a key `k`, the
last string-keyed binding of the list when there is one and `m k`
otherwise. -/
theorem argsLoopAux_eq_specLookup :
    (args : List GoVal) → (m : GoMap) → (k : String) →
    argsLoopAux args m k =
      match specLookup args k with
      | some v => some v
      | none => m k
  | [], _, _ => rfl
  | [_], _, _ => rfl
  | k0 :: v0 :: rest, m, k => by
    have ih := argsLoopAux_eq_specLookup rest
    cases k0 with
    | str s =>
      by_cases hk : s = k
      · subst hk
        simp only [argsLoopAux, specLookup, ih, GoMap.set, if_pos rfl]
        cases specLookup rest s <;> simp
      · simp only [argsLoopAux, specLookup, ih, GoMap.set, if_neg hk,
          if_neg (Ne.symm hk)]
        cases specLookup rest k <;> simp
    | int n => simp only [argsLoopAux, specLookup, ih]; cases specLookup rest k <;> simp
    | float num den => simp only [argsLoopAux, specLookup, ih]; cases specLookup rest k <;> simp
    | bool b => simp only [argsLoopAux, specLookup, ih]; cases specLookup rest k <;> simp
    | stringer s => simp only [argsLoopAux, specLookup, ih]; cases specLookup rest k <;> simp
    | err s => simp only [argsLoopAux, specLookup, ih]; cases specLookup rest k <;> simp
    | other s => simp only [argsLoopAux, specLookup, ih]; cases specLookup rest k <;> simp

/-- Embedding of the `Options` configuration struct (src/logs.go).
Durations are nanosecond counts; `MinDispatchLevel` (an `slog.Level`) and
`MaxBatchSize` are Go ints. -/
structure Options where
  URL : String
  APIKey : String
  Source : String
  DispatchEndpoint : String
  HealthEndpoint : String
  HeartbeatInterval : Int
  MinDispatchLevel : Int
  BatchInterval : Int
  MaxBatchSize : Int

/-- Embedding of the `Log` record (src/logs.go); the timestamp is an
abstract instant. -/
structure Log where
  Timestamp : Nat
  Level : String
  Message : String
  Args : GoMap
  Source : String

/-- Mutable state of a `Logger` (src/logs.go) as touched by the embedded
operations: the configuration, the shared reachability flag `isOk`, the
shared queue, and counters for the lines the local sink receives through
`l.logger.Warn` and `l.logger.Error`. -/
structure LoggerState where
  opts : Options
  isOk : Bool
  queue : List Log
  warnings : Nat
  errorsLogged : Nat

/-- Outcome of one HTTP exchange performed by the injected `http.Client`:
either a transport-level error (`err != nil`) or a completed response
with its status code. -/
inductive HTTPResult where
  | transportError
  | response (statusCode : Int)
deriving DecidableEq

/-- Embedding of `isStatusOK` (src/utils.go). -/
def isStatusOK (code : Int) : Bool :=
  200 ≤ code && code < 300

/-- The boolean `err == nil && isStatusOK(res.StatusCode)` computed by
`checkDispatcher` (src/utils.go) from the outcome of the GET. -/
def respOK : HTTPResult → Bool
  | .transportError => false
  | .response code => isStatusOK code

/-- Embedding of `checkDispatcher` (src/utils.go): with an empty remote
URL it returns `false` at once; otherwise it performs the GET against
`URL + HealthEndpoint` (outcome `net`), stores the result in the shared
flag `isOk`, and returns it. Result: (updated state, returned boolean). -/
def checkDispatcher (l : LoggerState) (net : HTTPResult) : LoggerState × Bool :=
  if l.opts.URL = "" then (l, false)
  else
    let ok := respOK net
    ({ l with isOk := ok }, ok)

/-- The `Log` literal built by `enqueueLog` (src/utils.go) for a call at
instant `now`. -/
def mkLog (l : LoggerState) (level msg : String) (args : List GoVal) (now : Nat) : Log :=
  { Level := level, Message := msg, Timestamp := now,
    Source := l.opts.Source, Args := buildArgs args }

/-- Embedding of `enqueueLog` (src/utils.go): build the record, append it
to the shared queue under the lock, and report whether the post-append
length reached `MaxBatchSize` — the condition under which the source
spawns `go l.flushQueue()` (the spawned flush is composed explicitly in
the theorems, since it runs asynchronously). -/
def enqueueLog (l : LoggerState) (level msg : String) (args : List GoVal) (now : Nat) :
    LoggerState × Bool :=
  let queue := l.queue ++ [mkLog l level msg args now]
  ({ l with queue := queue }, decide ((queue.length : Int) ≥ l.opts.MaxBatchSize))

/-- The HTTP request assembled by `prepareBatch` (src/utils.go): method,
target URL, headers, and the serialized batch as body. -/
structure Request where
  method : String
  url : String
  contentType : String
  apiKey : Option String
  batch : List Log

/-- Outcome of the fallible steps inside `prepareBatch` (src/utils.go):
`json.Marshal` failing, `http.NewRequestWithContext` failing (e.g. an
invalid URL), or both succeeding. -/
inductive PrepResult where
  | marshalError
  | requestError
  | ok
deriving DecidableEq

/-- Embedding of `prepareBatch` (src/utils.go): on either failure it logs
one line through `l.logger.Error` and returns no request; on success it
returns the POST request for `URL + DispatchEndpoint` carrying the batch,
the JSON content type, and the `X-API-Key` header when an API key is
configured. -/
def prepareBatch (l : LoggerState) (batch : List Log) (prep : PrepResult) :
    LoggerState × Option Request :=
  match prep with
  | .marshalError => ({ l with errorsLogged := l.errorsLogged + 1 }, none)
  | .requestError => ({ l with errorsLogged := l.errorsLogged + 1 }, none)
  | .ok =>
      (l, some
        { method := "POST"
          url := l.opts.URL ++ l.opts.DispatchEndpoint
          contentType := "application/json"
          apiKey := if l.opts.APIKey ≠ "" then some l.opts.APIKey else none
          batch := batch })

/-- Embedding of `dispatchBatch` (src/utils.go): a transport error sets
the shared flag `isOk` to false and warns locally; a completed response
with a non-2xx status warns locally and leaves the flag alone; a 2xx
response changes nothing. -/
def dispatchBatch (l : LoggerState) (_req : Request) (net : HTTPResult) : LoggerState :=
  match net with
  | .transportError => { l with isOk := false, warnings := l.warnings + 1 }
  | .response code =>
      if isStatusOK code then l
      else { l with warnings := l.warnings + 1 }

/-- Embedding of `flushQueue` (src/utils.go): return at once when the
remote URL is empty; under the lock, return when the queue is empty,
otherwise copy it into `batch` and reset it; only then (outside the lock,
before any network I/O has happened) prepare and dispatch the batch.
The second component lists the batches handed to `dispatchBatch`, so that
delivery counts can be stated. -/
def flushQueue (l : LoggerState) (prep : PrepResult) (net : HTTPResult) :
    LoggerState × List (List Log) :=
  if l.opts.URL = "" then (l, [])
  else if l.queue.length = 0 then (l, [])
  else
    let batch := l.queue
    let l1 := { l with queue := ([] : List Log) }
    match prepareBatch l1 batch prep with
    | (l2, none) => (l2, [])
    | (l2, some req) => (dispatchBatch l2 req net, [req.batch])

/-- Fixture: a logger state with remote dispatch configured and an empty
queue, mirroring `newTestLogger` in src/utils_test.go. -/
def sampleState : LoggerState :=
  { opts :=
      { URL := "http://localhost", APIKey := "key", Source := "src",
        DispatchEndpoint := "/dispatch", HealthEndpoint := "/health",
        HeartbeatInterval := 1000000000, MinDispatchLevel := -4,
        BatchInterval := 1000000000, MaxBatchSize := 10 },
    isOk := true, queue := [], warnings := 0, errorsLogged := 0 }

/-- Fixture: the same logger state with the remote URL cleared (remote
dispatch disabled) and one queued record. -/
def sampleStateNoURL : LoggerState :=
  { sampleState with
    opts := { sampleState.opts with URL := "" },
    queue := [mkLog sampleState "INFO" "pending" [] 0] }

/-- C8: `stringify` is a pure function rendering the float 3.14 as
"3.140000", `true` as "true", the integer 42 as "42", and passing every
string through unchanged. -/
theorem stringify_scenarios :
    stringify (GoVal.float 314 100) = "3.140000" ∧
    stringify (GoVal.bool true) = "true" ∧
    stringify (GoVal.int 42) = "42" ∧
    ∀ s : String, stringify (GoVal.str s) = s :=
  ⟨rfl, rfl, rfl, fun _ => rfl⟩

/-- Fixture: a request like the one `prepareBatch` builds for an empty
batch in the `sampleState` configuration. -/
def sampleRequest : Request :=
  { method := "POST", url := "http://localhost/dispatch",
    contentType := "application/json", apiKey := some "key", batch := [] }

/-- Fixture: `sampleState` with `MaxBatchSize` lowered to 1, so a single
enqueue reaches the size threshold. -/
def sampleStateBatch1 : LoggerState :=
  { sampleState with opts := { sampleState.opts with MaxBatchSize := 1 } }

/-- Fixture: `sampleState` with one record already queued. -/
def sampleStateQueued : LoggerState :=
  { sampleState with queue := [mkLog sampleState "WARN" "w" [] 1] }

/-- C1, counterexample: for the odd argument sequence `("a", "b", "c")`
the trailing `"c"` is not excluded from the enqueued record's args
mapping — the internal padding with an empty value together with the loop
bound `i < length` turns it into the key `"c"` bound to `""`. -/
theorem enqueueLog_oddArg_included :
    ((enqueueLog sampleState "INFO" "msg"
        [GoVal.str "a", GoVal.str "b", GoVal.str "c"] 0).1.queue.map
      (fun r => r.Args "c")) = [some ""] := rfl

/-- C1 as amended: a level call with an odd-length argument sequence never
errors, and its args mapping is exactly that of the even sequence obtained
by padding with one empty-string value — so the last unpaired argument,
when it is a string, appears as a key bound to `""` (overwriting any
earlier binding of that key), is skipped when it is not a string, and
never appears as a value. -/
theorem enqueueLog_oddArgs (l : LoggerState) (level msg : String)
    (args : List GoVal) (now : Nat) (h : args.length % 2 = 1) (k : String) :
    (mkLog l level msg args now).Args k = specLookup (args ++ [GoVal.str ""]) k := by
  have hpad : args.length % 2 ≠ 0 := by omega
  simp only [mkLog, buildArgs, if_pos hpad]
  rw [argsLoopAux_eq_specLookup]
  cases hsl : specLookup (args ++ [GoVal.str ""]) k <;> simp [hsl, GoMap.empty]

/-- Witness for the amended C1 at the concrete sequence `("x")`. -/
theorem enqueueLog_oddArgs_witness :
    ([GoVal.str "x"] : List GoVal).length % 2 = 1 ∧
    (mkLog sampleState "INFO" "m" [GoVal.str "x"] 0).Args "x" =
      specLookup ([GoVal.str "x"] ++ [GoVal.str ""]) "x" :=
  ⟨by decide,
    enqueueLog_oddArgs sampleState "INFO" "m" [GoVal.str "x"] 0 (by decide) "x"⟩

/-- C2: for an even-length argument sequence the enqueued record's args
mapping contains exactly the string-keyed pairs — a non-string key skips
only its own pair, not the whole call — and a later occurrence of the same
string key overwrites an earlier one: at every key the mapping agrees with
`specLookup`, the lookup written from the spec's words. -/
theorem enqueueLog_evenArgs (l : LoggerState) (level msg : String)
    (args : List GoVal) (now : Nat) (h : args.length % 2 = 0) (k : String) :
    (mkLog l level msg args now).Args k = specLookup args k := by
  have hpad : ¬args.length % 2 ≠ 0 := by omega
  simp only [mkLog, buildArgs, if_neg hpad]
  rw [argsLoopAux_eq_specLookup]
  cases hsl : specLookup args k <;> simp [hsl, GoMap.empty]

/-- Witness for C2 at a sequence with a non-string key and a duplicate
string key. -/
theorem enqueueLog_evenArgs_witness :
    ([GoVal.str "a", GoVal.int 1, GoVal.int 5, GoVal.str "v",
      GoVal.str "a", GoVal.bool true] : List GoVal).length % 2 = 0 ∧
    (mkLog sampleState "INFO" "m"
        [GoVal.str "a", GoVal.int 1, GoVal.int 5, GoVal.str "v",
         GoVal.str "a", GoVal.bool true] 0).Args "a" =
      specLookup [GoVal.str "a", GoVal.int 1, GoVal.int 5, GoVal.str "v",
        GoVal.str "a", GoVal.bool true] "a" :=
  ⟨by decide,
    enqueueLog_evenArgs sampleState "INFO" "m"
      [GoVal.str "a", GoVal.int 1, GoVal.int 5, GoVal.str "v",
       GoVal.str "a", GoVal.bool true] 0 (by decide) "a"⟩

/-- C3: `flushQueue` on an empty queue returns the state unchanged and
hands nothing to the dispatcher, and with an empty remote URL it is a
no-op regardless of queue contents — the queued records are neither sent
nor removed. -/
theorem flushQueue_noop (l : LoggerState) (prep : PrepResult) (net : HTTPResult) :
    (l.queue = [] → flushQueue l prep net = (l, [])) ∧
    (l.opts.URL = "" → flushQueue l prep net = (l, [])) := by
  constructor
  · intro hq
    by_cases hurl : l.opts.URL = ""
    · simp [flushQueue, hurl]
    · simp [flushQueue, hurl, hq]
  · intro hurl
    simp [flushQueue, hurl]

/-- Witness for C3: an empty queue with the remote configured, and a
non-empty queue with the remote URL empty. -/
theorem flushQueue_noop_witness :
    (sampleState.queue = [] ∧
      flushQueue sampleState PrepResult.ok (HTTPResult.response 200) =
        (sampleState, [])) ∧
    (sampleStateNoURL.opts.URL = "" ∧
      flushQueue sampleStateNoURL PrepResult.ok (HTTPResult.response 200) =
        (sampleStateNoURL, [])) :=
  ⟨⟨rfl, (flushQueue_noop sampleState PrepResult.ok (HTTPResult.response 200)).1 rfl⟩,
   ⟨rfl, (flushQueue_noop sampleStateNoURL PrepResult.ok (HTTPResult.response 200)).2 rfl⟩⟩

/-- C4, counterexample: with an empty remote URL `checkDispatcher` returns
false but does not overwrite the shared reachability flag — on a state
whose flag is true the flag stays true while the result is false, so the
flag is not unconditionally overwritten with the result. -/
theorem checkDispatcher_emptyURL_keepsFlag :
    (checkDispatcher sampleStateNoURL HTTPResult.transportError).2 = false ∧
    (checkDispatcher sampleStateNoURL HTTPResult.transportError).1.isOk = true :=
  ⟨rfl, rfl⟩

/-- C4 as amended: `checkDispatcher` returns true iff the remote URL is
non-empty and the GET completed with a 200–299 status (any transport
error or non-2xx status yields false); it overwrites the shared
reachability flag with that result whenever the URL is non-empty, and
with an empty URL it returns false leaving the state — the flag
included — untouched. -/
theorem checkDispatcher_amended (l : LoggerState) (net : HTTPResult) :
    ((checkDispatcher l net).2 = true ↔ (l.opts.URL ≠ "" ∧ respOK net = true)) ∧
    (l.opts.URL ≠ "" →
      (checkDispatcher l net).1 = { l with isOk := (checkDispatcher l net).2 }) ∧
    (l.opts.URL = "" →
      (checkDispatcher l net).1 = l ∧ (checkDispatcher l net).2 = false) := by
  by_cases hurl : l.opts.URL = "" <;> simp [checkDispatcher, hurl]

/-- Witness for the amended C4: a healthy probe on a configured state, and
a probe on a state with the URL cleared. -/
theorem checkDispatcher_amended_witness :
    (sampleState.opts.URL ≠ "" ∧
      (checkDispatcher sampleState (HTTPResult.response 204)).1 =
        { sampleState with
            isOk := (checkDispatcher sampleState (HTTPResult.response 204)).2 }) ∧
    (sampleStateNoURL.opts.URL = "" ∧
      (checkDispatcher sampleStateNoURL HTTPResult.transportError).1 = sampleStateNoURL ∧
      (checkDispatcher sampleStateNoURL HTTPResult.transportError).2 = false) :=
  ⟨⟨by decide,
      (checkDispatcher_amended sampleState (HTTPResult.response 204)).2.1 (by decide)⟩,
   ⟨rfl, (checkDispatcher_amended sampleStateNoURL HTTPResult.transportError).2.2 rfl⟩⟩

/-- C5: after a dispatch attempt a transport failure sets the shared
reachability flag to false and emits one local warning; a completed
response with a non-2xx status emits one local warning and leaves the
flag unchanged; a 2xx response changes nothing — in particular dispatch
success never raises the flag. -/
theorem dispatchBatch_flag_and_warnings (l : LoggerState) (req : Request) :
    dispatchBatch l req HTTPResult.transportError =
      { l with isOk := false, warnings := l.warnings + 1 } ∧
    (∀ code : Int, isStatusOK code = false →
      dispatchBatch l req (HTTPResult.response code) =
        { l with warnings := l.warnings + 1 }) ∧
    (∀ code : Int, isStatusOK code = true →
      dispatchBatch l req (HTTPResult.response code) = l) := by
  refine ⟨rfl, fun code hc => ?_, fun code hc => ?_⟩
  · simp [dispatchBatch, hc]
  · simp [dispatchBatch, hc]

/-- Witness for C5 at the statuses 500 and 200. -/
theorem dispatchBatch_flag_and_warnings_witness :
    isStatusOK 500 = false ∧ isStatusOK 200 = true ∧
    dispatchBatch sampleState sampleRequest (HTTPResult.response 500) =
      { sampleState with warnings := sampleState.warnings + 1 } ∧
    dispatchBatch sampleState sampleRequest (HTTPResult.response 200) = sampleState :=
  ⟨by decide, by decide,
    (dispatchBatch_flag_and_warnings sampleState sampleRequest).2.1 500 (by decide),
    (dispatchBatch_flag_and_warnings sampleState sampleRequest).2.2 200 (by decide)⟩

/-- C6: `enqueueLog` appends the new record to the end of the shared
queue; the asynchronous flush is spawned exactly when the post-append
length reaches `MaxBatchSize` (so with fewer records no size-triggered
flush occurs); and when it is spawned, the flush — whatever the
preparation and network outcomes — leaves the queue empty. The remote URL
is assumed non-empty, as it is in every state whose reachability flag
lets a level method enqueue at all. -/
theorem enqueueLog_append_and_trigger (l : LoggerState) (level msg : String)
    (args : List GoVal) (now : Nat) (hurl : l.opts.URL ≠ "") :
    (enqueueLog l level msg args now).1.queue =
      l.queue ++ [mkLog l level msg args now] ∧
    ((enqueueLog l level msg args now).2 = true ↔
      ((l.queue.length : Int) + 1 ≥ l.opts.MaxBatchSize)) ∧
    ((enqueueLog l level msg args now).2 = true →
      ∀ (prep : PrepResult) (net : HTTPResult),
        (flushQueue (enqueueLog l level msg args now).1 prep net).1.queue = []) := by
  refine ⟨rfl, ?_, ?_⟩
  · simp [enqueueLog]
  · intro _ prep net
    have hlen : ¬(l.queue ++ [mkLog l level msg args now]).length = 0 := by
      simp
    cases prep <;> cases net <;>
      (simp [enqueueLog, flushQueue, prepareBatch, dispatchBatch, hurl, hlen];
        try (split <;> simp))

/-- Witness for C6: with `MaxBatchSize = 1` a single enqueue triggers the
flush and the subsequent flush empties the queue. -/
theorem enqueueLog_append_and_trigger_witness :
    sampleStateBatch1.opts.URL ≠ "" ∧
    (enqueueLog sampleStateBatch1 "INFO" "m" [] 0).2 = true ∧
    (flushQueue (enqueueLog sampleStateBatch1 "INFO" "m" [] 0).1 PrepResult.ok
        (HTTPResult.response 200)).1.queue = [] :=
  ⟨by decide, by decide,
    (enqueueLog_append_and_trigger sampleStateBatch1 "INFO" "m" [] 0
        (by decide)).2.2 (by decide) PrepResult.ok (HTTPResult.response 200)⟩

/-- C7: a flush of a non-empty queue with the remote configured drains by
swap-and-clear: the live queue is empty afterwards whatever the
preparation and network outcomes (a failed batch is never re-queued), the
snapshot handed to the dispatcher is exactly the old queue contents and is
handed exactly once when preparation succeeds, and never more than once
(at-most-once delivery). -/
theorem flushQueue_drains (l : LoggerState) (prep : PrepResult) (net : HTTPResult)
    (hurl : l.opts.URL ≠ "") (hq : l.queue ≠ []) :
    (flushQueue l prep net).1.queue = [] ∧
    (prep = PrepResult.ok → (flushQueue l prep net).2 = [l.queue]) ∧
    (∀ b ∈ (flushQueue l prep net).2, b = l.queue) ∧
    (flushQueue l prep net).2.length ≤ 1 := by
  have hlen : ¬l.queue.length = 0 := by simpa using hq
  cases prep <;> cases net <;>
    (simp [flushQueue, prepareBatch, dispatchBatch, hurl, hlen];
      try (split <;> simp))

/-- Witness for C7: a queued state flushed into a transport failure — the
batch is handed out once and the queue stays empty, not re-queued. -/
theorem flushQueue_drains_witness :
    sampleStateQueued.opts.URL ≠ "" ∧ sampleStateQueued.queue ≠ [] ∧
    (flushQueue sampleStateQueued PrepResult.ok HTTPResult.transportError).1.queue = [] ∧
    (flushQueue sampleStateQueued PrepResult.ok HTTPResult.transportError).2 =
      [sampleStateQueued.queue] :=
  ⟨by decide, List.cons_ne_nil _ _,
    (flushQueue_drains sampleStateQueued PrepResult.ok HTTPResult.transportError
        (by decide) (List.cons_ne_nil _ _)).1,
    (flushQueue_drains sampleStateQueued PrepResult.ok HTTPResult.transportError
        (by decide) (List.cons_ne_nil _ _)).2.1 rfl⟩

/-- Characterwise model of Go `strings.ToUpper`, which `ParseLogLevel`
(src/logs.go) applies to the level name: upper-case each character by the
simple case mapping, which on the basic latin range is `Char.toUpper`. -/
def goToUpper (s : String) : String :=
  String.mk (s.data.map Char.toUpper)

/-- Embedding of the `logLevels` table (src/logs.go) as a lookup; the
`slog` levels are their numeric values, DEBUG = -4, INFO = 0, WARN = 4,
ERROR = 8. -/
def logLevels (s : String) : Option Int :=
  if s = "DEBUG" then some (-4)
  else if s = "INFO" then some 0
  else if s = "WARN" then some 4
  else if s = "ERROR" then some 8
  else none

/-- Embedding of `ParseLogLevel` (src/logs.go): look the upper-cased name
up in `logLevels`, defaulting to `slog.LevelInfo` (0) when absent. -/
def ParseLogLevel (levelStr : String) : Int :=
  match logLevels (goToUpper levelStr) with
  | some level => level
  | none => 0

/-- Packing a valid codepoint into a character and reading it back is the
identity. -/
theorem char_toNat_ofNat {n : Nat} (h : n.isValidChar) : (Char.ofNat n).toNat = n := by
  simp [Char.ofNat, dif_pos h, Char.ofNatAux, Char.toNat, UInt32.toNat,
    BitVec.toNat_ofNatLt]

/-- The simple upper-case mapping of a character is idempotent. -/
theorem charToUpper_idem (c : Char) : c.toUpper.toUpper = c.toUpper := by
  by_cases h : c.toNat ≥ 97 ∧ c.toNat ≤ 122
  · have h1 : c.toUpper = Char.ofNat (c.toNat - 32) := by
      simp [Char.toUpper, h]
    have hv : Nat.isValidChar (c.toNat - 32) := Or.inl (by omega)
    have h2 : (Char.ofNat (c.toNat - 32)).toNat = c.toNat - 32 :=
      char_toNat_ofNat hv
    have hnot : ¬((Char.ofNat (c.toNat - 32)).toNat ≥ 97 ∧
        (Char.ofNat (c.toNat - 32)).toNat ≤ 122) := by
      rw [h2]; omega
    rw [h1]
    simp [Char.toUpper, hnot]
  · have hc : c.toUpper = c := by simp [Char.toUpper, h]
    rw [hc]
    exact hc

/-- Mapping the upper-case function over a character list twice is the
same as mapping it once. -/
theorem map_toUpper_idem :
    (l : List Char) → (l.map Char.toUpper).map Char.toUpper = l.map Char.toUpper
  | [] => rfl
  | c :: cs => by simp [map_toUpper_idem cs, charToUpper_idem c]

/-- The model of `strings.ToUpper` is idempotent. -/
theorem goToUpper_idem (s : String) : goToUpper (goToUpper s) = goToUpper s :=
  congrArg String.mk (map_toUpper_idem s.data)

/-- C10: `ParseLogLevel` is case-insensitive — every string parses to the
same level as its upper-cased form — and any string whose upper-cased form
names none of DEBUG, INFO, WARN, ERROR parses to the Info level (0). -/
theorem ParseLogLevel_spec :
    (∀ s : String, ParseLogLevel s = ParseLogLevel (goToUpper s)) ∧
    (∀ s : String, goToUpper s ≠ "DEBUG" → goToUpper s ≠ "INFO" →
      goToUpper s ≠ "WARN" → goToUpper s ≠ "ERROR" → ParseLogLevel s = 0) := by
  constructor
  · intro s
    simp only [ParseLogLevel, goToUpper_idem]
  · intro s h1 h2 h3 h4
    simp [ParseLogLevel, logLevels, h1, h2, h3, h4]

/-- Witness for C10 at the concrete string "bogus". -/
theorem ParseLogLevel_spec_witness :
    goToUpper "bogus" ≠ "DEBUG" ∧ goToUpper "bogus" ≠ "INFO" ∧
    goToUpper "bogus" ≠ "WARN" ∧ goToUpper "bogus" ≠ "ERROR" ∧
    ParseLogLevel "bogus" = 0 :=
  ⟨by decide, by decide, by decide, by decide,
    ParseLogLevel_spec.2 "bogus" (by decide) (by decide) (by decide) (by decide)⟩

end Logs
